import Mathlib

/-!
Verification of the authentication and session flow of a small server-rendered
web application (Rust / actix-web).  The embedding below translates the data
model (`models.rs`), the credential store (`database.rs`), the identity
extractors and logout (`auth.rs`) and the auth-flow handlers (`handlers.rs`)
into pure Lean functions.  External collaborators are abstracted as function
parameters: bcrypt hashing and verification (`hashFn` / `verifyFn`), the JSON
decoding of a stored session value (`dec`), and template rendering (responses
carry the template name and the typed rendering context instead of HTML).
The SQLite `users` table is modelled as a list of rows in insertion order.
-/

namespace WebAuth

/-- Persistent user record (`models.rs`, struct `User`).  Timestamps are
abstracted to `Nat`. -/
structure User where
  id : String
  email : String
  username : String
  password_hash : String
  first_name : Option String
  last_name : Option String
  avatar_url : Option String
  is_active : Bool
  created_at : Nat
  updated_at : Nat
  deriving DecidableEq, Repr

/-- `User::new` (`models.rs`): fresh id and creation time are inputs of the
model (`Uuid::new_v4` and `Utc::now` in the source); the name and avatar
fields start out unset, the account starts active. -/
def User.new (freshId : String) (now : Nat)
    (email username password_hash : String) : User :=
  { id := freshId, email := email, username := username,
    password_hash := password_hash,
    first_name := none, last_name := none, avatar_url := none,
    is_active := true, created_at := now, updated_at := now }

/-- `User::full_name` (`models.rs`). -/
def User.full_name (u : User) : String :=
  match u.first_name, u.last_name with
  | some first, some last => first ++ " " ++ last
  | some first, none => first
  | none, some last => last
  | none, none => u.username

/-- Session identity payload (`models.rs`, struct `SessionUser`). -/
structure SessionUser where
  id : String
  email : String
  username : String
  full_name : String
  avatar_url : Option String
  deriving DecidableEq, Repr

/-- `impl From<User> for SessionUser` (`models.rs`). -/
def SessionUser.fromUser (user : User) : SessionUser :=
  { id := user.id, email := user.email, username := user.username,
    full_name := user.full_name, avatar_url := user.avatar_url }

/-- `models.rs`, struct `LoginForm`. -/
structure LoginForm where
  email : String
  password : String
  remember_me : Option Bool
  deriving DecidableEq, Repr

/-- `models.rs`, struct `RegisterForm`. -/
structure RegisterForm where
  email : String
  username : String
  password : String
  password_confirm : String
  first_name : Option String
  last_name : Option String
  deriving DecidableEq, Repr

/-- `RegisterForm::validate` (`models.rs`).  Each Rust if / else-if block
appends at most one message to the accumulating error vector, in source
order.  Rust `String::len` is the UTF-8 byte length, hence `utf8ByteSize`;
Rust `str::contains(char)` is membership of the character, hence
`data.contains`. -/
def RegisterForm.validate (f : RegisterForm) : Except (List String) Unit :=
  let errors : List String := []
  let errors := errors ++
    (if f.email.isEmpty then ["Email is required"]
     else if !(f.email.data.contains '@') then
       ["Please enter a valid email address"]
     else [])
  let errors := errors ++
    (if f.username.isEmpty then ["Username is required"]
     else if f.username.utf8ByteSize < 3 then
       ["Username must be at least 3 characters long"]
     else [])
  let errors := errors ++
    (if f.password.isEmpty then ["Password is required"]
     else if f.password.utf8ByteSize < 6 then
       ["Password must be at least 6 characters long"]
     else [])
  let errors := errors ++
    (if f.password ≠ f.password_confirm then ["Passwords do not match"]
     else [])
  if errors.isEmpty then .ok () else .error errors

/-- Failures of the credential store (`database.rs`): a unique-constraint
violation surfaces as a conflict, any other storage failure carries a
message. -/
inductive DbError where
  | conflict
  | failure (msg : String)
  deriving DecidableEq, Repr

/-- The `users` table: rows in insertion order. -/
abbrev UsersTable := List User

/-- `authenticate_user` rebuilds the `User` from the fetched row
(`database.rs`): `is_active` is stored as an SQLite integer (1 for true,
0 for false) and read back through `!= 0`; every other column maps back
unchanged. -/
def rowToUser (r : User) : User :=
  { r with is_active := ((if r.is_active then (1 : Int) else 0) != 0) }

/-- The row inserted by `Database::create_user` (`database.rs`): the INSERT
binds `first_name` and `last_name` from the form — not from the freshly built
`User`, whose name fields are `none` — and its column list omits
`avatar_url`, which is therefore NULL. -/
def createdRow (hashFn : String → String) (freshId : String) (now : Nat)
    (form : RegisterForm) : User :=
  { User.new freshId now form.email form.username (hashFn form.password) with
    first_name := form.first_name, last_name := form.last_name }

/-- `Database::create_user` (`database.rs`): hashes the password (bcrypt,
modelled by `hashFn`), builds a fresh `User`, and INSERTs a row; the INSERT
hits a unique-constraint violation exactly when an existing row shares the
id, the email or the username.  The function returns the freshly built
`User`, not the inserted row. -/
def create_user (hashFn : String → String) (freshId : String) (now : Nat)
    (db : UsersTable) (form : RegisterForm) : Except DbError (User × UsersTable) :=
  let password_hash := hashFn form.password
  let user := User.new freshId now form.email form.username password_hash
  if db.any (fun r =>
      r.id == user.id || r.email == user.email || r.username == user.username)
  then .error .conflict
  else .ok (user, db ++ [createdRow hashFn freshId now form])

/-- `Database::authenticate_user` (`database.rs`): fetches the first row whose
email matches and whose `is_active` flag is set, then verifies the password
against the stored hash (bcrypt verify, modelled by `verifyFn password hash`).
Returns `none` both when no such row exists and when verification fails. -/
def authenticate_user (verifyFn : String → String → Bool) (db : UsersTable)
    (email password : String) : Option User :=
  match db.find? (fun r => r.email == email && r.is_active) with
  | some record =>
      if verifyFn password record.password_hash then some (rowToUser record)
      else none
  | none => none

/-- `Database::email_exists` (`database.rs`): `COUNT(*) > 0` over rows with
the given email. -/
def email_exists (db : UsersTable) (email : String) : Bool :=
  decide (0 < db.countP (fun r => r.email == email))

/-- `Database::username_exists` (`database.rs`). -/
def username_exists (db : UsersTable) (username : String) : Bool :=
  decide (0 < db.countP (fun r => r.username == username))

/-- Outcome of the nested fallible session steps in the extractors
(`auth.rs`): `Session::extract` can fail, `session.get::<String>("user")`
can fail or find no stored value, or a stored value is present. -/
inductive SessionLookup where
  | extractFailed
  | getFailed
  | absent
  | present (userJson : String)
  deriving DecidableEq, Repr

/-- `AuthUser::from_request` (`auth.rs`): any of the three failing lookup
outcomes, or a stored value that does not decode to a `SessionUser`, yields
the `ErrorUnauthorized("Not authenticated")` rejection; `dec` models
`serde_json::from_str::<SessionUser>`. -/
def authUserFromRequest (dec : String → Option SessionUser)
    (l : SessionLookup) : Except String SessionUser :=
  match l with
  | .present s =>
      match dec s with
      | some user => .ok user
      | none => .error "Not authenticated"
  | _ => .error "Not authenticated"

/-- `OptionalAuthUser::from_request` (`auth.rs`): same lookup, but every
failing outcome yields `none` instead of a rejection. -/
def optionalAuthUserFromRequest (dec : String → Option SessionUser)
    (l : SessionLookup) : Option SessionUser :=
  match l with
  | .present s => dec s
  | _ => none

/-- A handler response: either an HTTP 302 redirect, or a rendered page
carrying the template name and the typed rendering context. -/
inductive Response (C : Type) where
  | redirect (location : String)
  | page (template : String) (ctx : C)
  deriving DecidableEq, Repr

/-- The `brand_name` value inserted by every handler (`handlers.rs`). -/
def brandName : String := "Rust Web AI"

/-- Rendering context of GET /login (`handlers.rs`, `login_page`). -/
structure LoginPageCtx where
  brand_name : String
  msg : Option String
  deriving DecidableEq, Repr

/-- Rendering context of POST /login (`handlers.rs`, `login_submit`):
`form_data` is the whole submitted `LoginForm`. -/
structure LoginSubmitCtx where
  brand_name : String
  form_data : LoginForm
  error : Option String
  deriving DecidableEq, Repr

/-- Rendering context of GET /register (`handlers.rs`, `register_page`). -/
structure RegisterPageCtx where
  brand_name : String
  deriving DecidableEq, Repr

/-- Rendering context of POST /register (`handlers.rs`, `register_submit`):
`form_data` is the whole submitted `RegisterForm`. -/
structure RegisterSubmitCtx where
  brand_name : String
  form_data : RegisterForm
  errors : Option (List String)
  deriving DecidableEq, Repr

/-- Rendering context of GET /dashboard (`handlers.rs`, `dashboard_page`);
`nav_keys` records the keys of the inserted navigation items. -/
structure DashboardCtx where
  title : String
  brand_name : String
  user : SessionUser
  active : String
  nav_keys : List String
  deriving DecidableEq, Repr

/-- Rendering context of GET /profile (`handlers.rs`, `profile_page`). -/
structure ProfileCtx where
  title : String
  brand_name : String
  user : SessionUser
  active : String
  deriving DecidableEq, Repr

/-- `login_page` (`handlers.rs`): redirect to /dashboard when the optional
extractor resolved an identity, otherwise render the login form with the
optional query message. -/
def login_page (msg : Option String) (user : Option SessionUser) :
    Response LoginPageCtx :=
  match user with
  | some _ => .redirect "/dashboard"
  | none => .page "auth/login-simple.html.tera" { brand_name := brandName, msg := msg }

/-- `register_page` (`handlers.rs`). -/
def register_page (user : Option SessionUser) : Response RegisterPageCtx :=
  match user with
  | some _ => .redirect "/dashboard"
  | none => .page "auth/register-simple.html.tera" { brand_name := brandName }

/-- `login_submit` (`handlers.rs`) as a function of the credential-store
outcome.  `authResult` is the result of `db.authenticate_user`;
`sessionStore` is the combined outcome of `login_user` (serde serialization
followed by `session.insert`).  The context always carries `brand_name` and
the whole form under `form_data`. -/
def login_submit (form : LoginForm) (authResult : Except String (Option User))
    (sessionStore : Except String Unit) : Response LoginSubmitCtx :=
  let ctx : LoginSubmitCtx :=
    { brand_name := brandName, form_data := form, error := none }
  match authResult with
  | .ok (some _user) =>
      match sessionStore with
      | .error e =>
          .page "auth/login-simple.html.tera"
            { ctx with error := some ("Login failed: " ++ e) }
      | .ok _ => .redirect "/dashboard"
  | .ok none =>
      .page "auth/login.html.tera"
        { ctx with error := some "Invalid email or password" }
  | .error e =>
      .page "auth/login.html.tera"
        { ctx with error := some ("Login error: " ++ e) }

/-- POST /login end to end: in the list model of the table the storage layer
itself cannot fail, so the handler receives `.ok` of the lookup result. -/
def login_submit_flow (verifyFn : String → String → Bool) (db : UsersTable)
    (sessionStore : Except String Unit) (form : LoginForm) :
    Response LoginSubmitCtx :=
  login_submit form (.ok (authenticate_user verifyFn db form.email form.password))
    sessionStore

/-- `register_submit` (`handlers.rs`) as a function of the three store
outcomes, checked in source order: field validation, then `email_exists`,
then `username_exists`, then `create_user`. -/
def register_submit (form : RegisterForm) (emailCheck : Except String Bool)
    (usernameCheck : Except String Bool) (createResult : Except String User) :
    Response RegisterSubmitCtx :=
  let ctx : RegisterSubmitCtx :=
    { brand_name := brandName, form_data := form, errors := none }
  match form.validate with
  | .error validation_errors =>
      .page "auth/register-simple.html.tera"
        { ctx with errors := some validation_errors }
  | .ok _ =>
    match emailCheck with
    | .ok true =>
        .page "auth/register-simple.html.tera"
          { ctx with errors := some ["Email address is already registered"] }
    | .error e =>
        .page "auth/register-simple.html.tera"
          { ctx with errors := some ["Database error: " ++ e] }
    | .ok false =>
      match usernameCheck with
      | .ok true =>
          .page "auth/register-simple.html.tera"
            { ctx with errors := some ["Username is already taken"] }
      | .error e =>
          .page "auth/register-simple.html.tera"
            { ctx with errors := some ["Database error: " ++ e] }
      | .ok false =>
        match createResult with
        | .ok _user => .redirect "/login?msg=registration_success"
        | .error e =>
            .page "auth/register-simple.html.tera"
              { ctx with errors := some ["Registration failed: " ++ e] }

/-- Result of a protected route: either the extractor rejection (the handler
body is never evaluated) or the handler response. -/
inductive RouteResult (C : Type) where
  | unauthorized (msg : String)
  | response (resp : Response C)
  deriving DecidableEq, Repr

/-- `dashboard_page` handler body (`handlers.rs`). -/
def dashboard_page (user : SessionUser) : Response DashboardCtx :=
  .page "dashboard-simple.html.tera"
    { title := "Dashboard", brand_name := brandName, user := user,
      active := "dashboard", nav_keys := ["home", "dashboard"] }

/-- `profile_page` handler body (`handlers.rs`). -/
def profile_page (user : SessionUser) : Response ProfileCtx :=
  .page "auth/profile.html.tera"
    { title := "Profile Settings", brand_name := brandName, user := user,
      active := "profile" }

/-- GET /dashboard as wired in `main.rs`: the `AuthUser` extractor runs
before the handler; an extractor error becomes the Unauthorized outcome and
the handler body is never evaluated. -/
def dashboard_route (dec : String → Option SessionUser) (l : SessionLookup) :
    RouteResult DashboardCtx :=
  match authUserFromRequest dec l with
  | .error msg => .unauthorized msg
  | .ok user => .response (dashboard_page user)

/-- GET /profile as wired in `main.rs`. -/
def profile_route (dec : String → Option SessionUser) (l : SessionLookup) :
    RouteResult ProfileCtx :=
  match authUserFromRequest dec l with
  | .error msg => .unauthorized msg
  | .ok user => .response (profile_page user)

/-- POST /login as wired in `main.rs`: the route dispatches straight to
`login_submit`, whose parameter list contains no identity extractor — the
session lookup of the request is never consulted. -/
def login_submit_route (_dec : String → Option SessionUser) (_l : SessionLookup)
    (form : LoginForm) (authResult : Except String (Option User))
    (sessionStore : Except String Unit) : Response LoginSubmitCtx :=
  login_submit form authResult sessionStore

/-- POST /register as wired in `main.rs`: same — `register_submit` takes no
identity extractor. -/
def register_submit_route (_dec : String → Option SessionUser)
    (_l : SessionLookup) (form : RegisterForm) (emailCheck : Except String Bool)
    (usernameCheck : Except String Bool) (createResult : Except String User) :
    Response RegisterSubmitCtx :=
  register_submit form emailCheck usernameCheck createResult

/-- Response of the `logout` handler (`auth.rs`): `session.clear()` marks the
session for purge — reflected to the client through the Set-Cookie of the
response — and the handler redirects. -/
structure LogoutResponse where
  clearSession : Bool
  location : String
  deriving DecidableEq, Repr

/-- `logout` (`auth.rs`). -/
def logout : LogoutResponse :=
  { clearSession := true, location := "/login?msg=logged_out" }

/-- `CookieSessionStore` (`main.rs`): the session state lives entirely in the
client-held cookie; the server keeps no session state at all. -/
abbrev CookieSessionStore := Unit

/-- Processing a logout request server-side: `session.clear()` only affects
the Set-Cookie of the response; the cookie store holds nothing that could
change. -/
def logoutStep (store : CookieSessionStore) : CookieSessionStore × LogoutResponse :=
  (store, logout)

/-- Effect of a logout response on the cookie jar of a client that honours
Set-Cookie. -/
def applyToCookieJar (resp : LogoutResponse) (jar : Option String) :
    Option String :=
  if resp.clearSession then none else jar

/-- Decoding the session value carried by an incoming request against the
cookie store: with `CookieSessionStore` this is a pure function of the token
alone. -/
def storeDecode (dec : String → Option SessionUser) (_store : CookieSessionStore)
    (token : String) : Option SessionUser :=
  dec token

/-- Resolving the cookie jar of a request: no cookie means no identity. -/
def decodeIncomingToken (dec : String → Option SessionUser)
    (jar : Option String) : Option SessionUser :=
  jar.bind dec

/-- Spec-side display-name derivation: first+last, or first, or last, or the
username, in that precedence. -/
def displayNameSpec (first last : Option String) (username : String) : String :=
  match first, last with
  | some f, some l => f ++ " " ++ l
  | some f, none => f
  | none, some l => l
  | none, none => username

/-- Spec-side email violations of the registration constraints. -/
def emailViolations (f : RegisterForm) : List String :=
  if f.email.isEmpty then ["Email is required"]
  else if !(f.email.data.contains '@') then ["Please enter a valid email address"]
  else []

/-- Spec-side username violations. -/
def usernameViolations (f : RegisterForm) : List String :=
  if f.username.isEmpty then ["Username is required"]
  else if f.username.utf8ByteSize < 3 then
    ["Username must be at least 3 characters long"]
  else []

/-- Spec-side password violations. -/
def passwordViolations (f : RegisterForm) : List String :=
  if f.password.isEmpty then ["Password is required"]
  else if f.password.utf8ByteSize < 6 then
    ["Password must be at least 6 characters long"]
  else []

/-- Spec-side confirmation violations. -/
def confirmViolations (f : RegisterForm) : List String :=
  if f.password ≠ f.password_confirm then ["Passwords do not match"] else []

/-- Spec-side aggregate of all field violations, in field order. -/
def violationsSpec (f : RegisterForm) : List String :=
  emailViolations f ++ usernameViolations f ++ passwordViolations f ++
    confirmViolations f

/-- Spec-side statement that no registration constraint is violated. -/
def constraintsHold (f : RegisterForm) : Prop :=
  (f.email.isEmpty = false ∧ f.email.data.contains '@' = true) ∧
  (f.username.isEmpty = false ∧ 3 ≤ f.username.utf8ByteSize) ∧
  (f.password.isEmpty = false ∧ 6 ≤ f.password.utf8ByteSize) ∧
  f.password = f.password_confirm

/-- Projection used to observe which form a rendered registration response
echoes back. -/
def regRespForm : Response RegisterSubmitCtx → Option RegisterForm
  | .page _ ctx => some ctx.form_data
  | .redirect _ => none

/-- Projection used to observe which form a rendered login response echoes
back. -/
def loginRespForm : Response LoginSubmitCtx → Option LoginForm
  | .page _ ctx => some ctx.form_data
  | .redirect _ => none

/-- Concrete stand-in for bcrypt hashing, used to instantiate theorems. -/
def sampleHash (password : String) : String := "bcrypt$" ++ password

/-- Concrete stand-in for bcrypt verification, matching `sampleHash`. -/
def sampleVerify (password hashVal : String) : Bool :=
  hashVal == "bcrypt$" ++ password

/-- Concrete session identity, used to instantiate theorems. -/
def sampleUser : SessionUser :=
  { id := "u1", email := "a@x.com", username := "alice",
    full_name := "alice", avatar_url := none }

/-- Concrete session decoder: exactly the stored value "token1" decodes. -/
def sampleDec (t : String) : Option SessionUser :=
  if t == "token1" then some sampleUser else none

/-- Concrete valid registration form. -/
def regFormOk : RegisterForm :=
  { email := "a@x.com", username := "alice", password := "secret1",
    password_confirm := "secret1", first_name := none, last_name := none }

/-- Concrete valid registration form that also carries first and last name. -/
def regFormAnn : RegisterForm :=
  { email := "a@x.com", username := "alice", password := "secret1",
    password_confirm := "secret1", first_name := some "Ann",
    last_name := some "Lee" }

/-- Concrete registration form whose only defect is a confirmation
mismatch. -/
def regFormMismatch : RegisterForm :=
  { email := "a@x.com", username := "alice", password := "secret1",
    password_confirm := "secret2", first_name := none, last_name := none }

/-- Concrete login form with a registered email and a wrong password. -/
def loginFormWrong : LoginForm :=
  { email := "a@x.com", password := "wrong", remember_me := none }

/-- Concrete login form with an email belonging to no user. -/
def loginFormNoUser : LoginForm :=
  { email := "b@x.com", password := "whatever", remember_me := none }

/-- The `User` value returned by `create_user` for `regFormAnn`. -/
def c1User : User := User.new "id-1" 0 "a@x.com" "alice" (sampleHash "secret1")

/-- The row inserted by `create_user` for `regFormAnn`. -/
def c1Row : User := createdRow sampleHash "id-1" 0 regFormAnn

/-- The SQLite roundtrip of a row is the identity: storing `is_active` as an
integer and reading it back through `!= 0` recovers the original flag. -/
theorem rowToUser_eq (r : User) : rowToUser r = r := by
  obtain ⟨i, e, un, ph, fn, ln, av, ia, ca, ua⟩ := r
  cases ia <;> rfl

/-- Searching an appended list when the first part has no hit. -/
theorem find?_append_of_none {α : Type} {p : α → Bool} {l₁ l₂ : List α}
    (h : l₁.find? p = none) : (l₁ ++ l₂).find? p = l₂.find? p := by
  rw [List.find?_append, h]
  rfl

/-- C9: the SessionIdentity built from a User copies id, email, username and
avatar URL unchanged, and derives the display name with the precedence
first+last, or first, or last, or username. -/
theorem c9_session_identity_fields (u : User) :
    SessionUser.fromUser u =
      { id := u.id, email := u.email, username := u.username,
        full_name := displayNameSpec u.first_name u.last_name u.username,
        avatar_url := u.avatar_url } := by
  cases h1 : u.first_name <;> cases h2 : u.last_name <;>
    simp [SessionUser.fromUser, User.full_name, displayNameSpec, h1, h2]

/-- C10: the required and the optional identity extractor agree on every
request: the required one succeeds with identity u exactly when the optional
one yields some u, and it rejects with the Unauthorized error exactly when
the optional one yields none. -/
theorem c10_extractors_agree (dec : String → Option SessionUser)
    (l : SessionLookup) (u : SessionUser) :
    (authUserFromRequest dec l = .ok u ↔
      optionalAuthUserFromRequest dec l = some u) ∧
    (authUserFromRequest dec l = .error "Not authenticated" ↔
      optionalAuthUserFromRequest dec l = none) := by
  cases l with
  | present s =>
      cases h : dec s <;>
        simp [authUserFromRequest, optionalAuthUserFromRequest, h]
  | extractFailed => simp [authUserFromRequest, optionalAuthUserFromRequest]
  | getFailed => simp [authUserFromRequest, optionalAuthUserFromRequest]
  | absent => simp [authUserFromRequest, optionalAuthUserFromRequest]

/-- C5, counterexample: processing a logout request leaves the (empty)
server-side cookie store untouched, so the very token that resolved to an
identity before the logout still decodes to that identity afterwards —
decode does not return absent for the replayed token. -/
theorem c5_counterexample :
    decodeIncomingToken sampleDec (some "token1") = some sampleUser ∧
    storeDecode sampleDec ((logoutStep ()).1) "token1" = some sampleUser ∧
    storeDecode sampleDec ((logoutStep ()).1) "token1" ≠ none := by
  refine ⟨rfl, rfl, ?_⟩
  decide

/-- C5, amended: after logout the response carries the session-clearing
directive and redirects to the login page; a client that honours it drops the
cookie, and its subsequent requests resolve to no identity.  The token
itself is not invalidated server-side (the cookie store is stateless). -/
theorem c5_logout_amended (dec : String → Option SessionUser)
    (jar : Option String) :
    (logoutStep ()).2.clearSession = true ∧
    (logoutStep ()).2.location = "/login?msg=logged_out" ∧
    applyToCookieJar (logoutStep ()).2 jar = none ∧
    decodeIncomingToken dec (applyToCookieJar (logoutStep ()).2 jar) = none := by
  refine ⟨rfl, rfl, rfl, rfl⟩

/-- C7, counterexample: a request whose session token decodes to an identity
submits a registration form with a password mismatch; the submission is
fully processed — validation runs and the form is re-rendered with the
violation — instead of being redirected to /dashboard. -/
theorem c7_counterexample :
    optionalAuthUserFromRequest sampleDec (.present "token1") = some sampleUser ∧
    register_submit_route sampleDec (.present "token1") regFormMismatch
        (.ok false) (.ok false) (.ok c1User) =
      .page "auth/register-simple.html.tera"
        { brand_name := brandName, form_data := regFormMismatch,
          errors := some ["Passwords do not match"] } ∧
    register_submit_route sampleDec (.present "token1") regFormMismatch
        (.ok false) (.ok false) (.ok c1User) ≠ .redirect "/dashboard" := by
  refine ⟨rfl, rfl, ?_⟩
  decide

/-- C7, amended: an already-authenticated visitor requesting the login or
register page (GET) is redirected to /dashboard without the form being
rendered; the POST submit handlers, however, never consult the session
identity, so a submitted form is processed identically whatever the
authentication state of the request. -/
theorem c7_redirect_amended (u : SessionUser) (msg : Option String)
    (dec : String → Option SessionUser) (l l₂ : SessionLookup)
    (lf : LoginForm) (rf : RegisterForm)
    (ar : Except String (Option User)) (store : Except String Unit)
    (r1 r2 : Except String Bool) (r3 : Except String User) :
    login_page msg (some u) = .redirect "/dashboard" ∧
    register_page (some u) = .redirect "/dashboard" ∧
    login_submit_route dec l lf ar store =
      login_submit_route dec l₂ lf ar store ∧
    register_submit_route dec l rf r1 r2 r3 =
      register_submit_route dec l₂ rf r1 r2 r3 ∧
    login_submit_route dec l lf ar store = login_submit lf ar store ∧
    register_submit_route dec l rf r1 r2 r3 = register_submit rf r1 r2 r3 := by
  refine ⟨rfl, rfl, rfl, rfl, rfl, rfl⟩

/-- C2: on the protected routes (dashboard and profile) a request whose
session token is absent (including failed session extraction or retrieval)
or whose stored value fails to decode to a SessionUser is rejected with the
Unauthorized outcome, and the handler body never runs; a request with a
valid token reaches the handler with the decoded identity. -/
theorem c2_protected_routes_require_auth (dec : String → Option SessionUser)
    (l : SessionLookup) :
    ((l = .extractFailed ∨ l = .getFailed ∨ l = .absent) →
      dashboard_route dec l = .unauthorized "Not authenticated" ∧
      profile_route dec l = .unauthorized "Not authenticated") ∧
    (∀ s : String, l = .present s → dec s = none →
      dashboard_route dec l = .unauthorized "Not authenticated" ∧
      profile_route dec l = .unauthorized "Not authenticated") ∧
    (∀ (s : String) (u : SessionUser), l = .present s → dec s = some u →
      dashboard_route dec l = .response (dashboard_page u) ∧
      profile_route dec l = .response (profile_page u)) := by
  refine ⟨?_, ?_, ?_⟩
  · rintro (rfl | rfl | rfl) <;>
      simp [dashboard_route, profile_route, authUserFromRequest]
  · rintro s rfl h
    simp [dashboard_route, profile_route, authUserFromRequest, h]
  · rintro s u rfl h
    simp [dashboard_route, profile_route, authUserFromRequest, h]

/-- C2, witness: a request with no session value is rejected on both
protected routes, and a request whose token decodes yields the identity. -/
theorem c2_protected_routes_require_auth_witness :
    dashboard_route sampleDec .absent = .unauthorized "Not authenticated" ∧
    profile_route sampleDec .absent = .unauthorized "Not authenticated" ∧
    dashboard_route sampleDec (.present "token1") =
      .response (dashboard_page sampleUser) ∧
    profile_route sampleDec (.present "token1") =
      .response (profile_page sampleUser) := by
  have h1 := (c2_protected_routes_require_auth sampleDec .absent).1
    (Or.inr (Or.inr rfl))
  have h2 := (c2_protected_routes_require_auth sampleDec
    (.present "token1")).2.2 "token1" sampleUser rfl (by rfl)
  exact ⟨h1.1, h1.2, h2.1, h2.2⟩

/-- C8, counterexample: a failed registration submission re-renders the form
with a context whose form_data carries the submitted password and its
confirmation verbatim, and a failed login re-render likewise carries the
submitted password — the password fields are not withheld by the handler. -/
theorem c8_counterexample :
    (regRespForm (register_submit regFormMismatch (.ok false) (.ok false)
        (.ok c1User))).map RegisterForm.password = some "secret1" ∧
    (regRespForm (register_submit regFormMismatch (.ok false) (.ok false)
        (.ok c1User))).map RegisterForm.password_confirm = some "secret2" ∧
    (loginRespForm (login_submit loginFormWrong (.ok none) (.ok ()))).map
        LoginForm.password = some "wrong" := by
  refine ⟨rfl, rfl, rfl⟩

/-- C8, amended: every re-rendered login or registration response echoes the
submitted form wholesale — the rendering context carries the entire form,
password and password-confirmation fields included; any withholding of the
password values could only happen in the external templates. -/
theorem c8_form_echo_amended (rf : RegisterForm) (r1 r2 : Except String Bool)
    (r3 : Except String User) (lf : LoginForm)
    (ar : Except String (Option User)) (store : Except String Unit) :
    (regRespForm (register_submit rf r1 r2 r3) = none ∨
      regRespForm (register_submit rf r1 r2 r3) = some rf) ∧
    (loginRespForm (login_submit lf ar store) = none ∨
      loginRespForm (login_submit lf ar store) = some lf) := by
  constructor
  · unfold register_submit
    rcases rf.validate with ve | u
    · simp [regRespForm]
    · rcases r1 with e1 | b1
      · simp [regRespForm]
      · rcases b1
        · rcases r2 with e2 | b2
          · simp [regRespForm]
          · rcases b2
            · rcases r3 with e3 | u3 <;> simp [regRespForm]
            · simp [regRespForm]
        · simp [regRespForm]
  · unfold login_submit
    rcases ar with e | ou
    · simp [loginRespForm]
    · rcases ou with _ | u
      · simp [loginRespForm]
      · rcases store with e | _ <;> simp [loginRespForm]

/-- C6, counterexample: an infrastructure failure during login or
registration is re-rendered with a message that interpolates the underlying
error — it differs from the generic credential-failure message and discloses
the failure detail. -/
theorem c6_counterexample :
    login_submit loginFormNoUser (.error "db offline") (.ok ()) =
      .page "auth/login.html.tera"
        { brand_name := brandName, form_data := loginFormNoUser,
          error := some "Login error: db offline" } ∧
    (some "Login error: db offline" : Option String) ≠
      some "Invalid email or password" ∧
    register_submit regFormOk (.error "db offline") (.ok false) (.ok c1User) =
      .page "auth/register-simple.html.tera"
        { brand_name := brandName, form_data := regFormOk,
          errors := some ["Database error: db offline"] } := by
  refine ⟨rfl, by decide, rfl⟩

/-- C6, amended: a login or registration submission that fails on a storage,
crypto or encoding infrastructure failure is answered with a re-rendered
page (never an unhandled fault), but the rendered error message interpolates
the underlying error — "Login error: e", "Database error: e",
"Registration failed: e" or "Login failed: e" — thereby revealing that an
infrastructure failure occurred and disclosing its detail. -/
theorem c6_infra_error_amended (lf : LoginForm) (rf : RegisterForm)
    (e : String) (store : Except String Unit)
    (hval : rf.validate = .ok ()) :
    login_submit lf (.error e) store =
      .page "auth/login.html.tera"
        { brand_name := brandName, form_data := lf,
          error := some ("Login error: " ++ e) } ∧
    (∀ r2 : Except String Bool, ∀ r3 : Except String User,
      register_submit rf (.error e) r2 r3 =
        .page "auth/register-simple.html.tera"
          { brand_name := brandName, form_data := rf,
            errors := some ["Database error: " ++ e] }) ∧
    (∀ r3 : Except String User,
      register_submit rf (.ok false) (.error e) r3 =
        .page "auth/register-simple.html.tera"
          { brand_name := brandName, form_data := rf,
            errors := some ["Database error: " ++ e] }) ∧
    register_submit rf (.ok false) (.ok false) (.error e) =
      .page "auth/register-simple.html.tera"
        { brand_name := brandName, form_data := rf,
          errors := some ["Registration failed: " ++ e] } ∧
    (∀ user : User, login_submit lf (.ok (some user)) (.error e) =
      .page "auth/login-simple.html.tera"
        { brand_name := brandName, form_data := lf,
          error := some ("Login failed: " ++ e) }) := by
  refine ⟨rfl, ?_, ?_, ?_, fun user => rfl⟩
  · intro r2 r3
    simp [register_submit, hval]
  · intro r3
    simp [register_submit, hval]
  · simp [register_submit, hval]

/-- C6, witness: the amended statement at a concrete valid form and a
concrete failure detail. -/
theorem c6_infra_error_amended_witness :
    regFormOk.validate = .ok () ∧
    login_submit loginFormWrong (.error "io error") (.ok ()) =
      .page "auth/login.html.tera"
        { brand_name := brandName, form_data := loginFormWrong,
          error := some ("Login error: " ++ "io error") } ∧
    register_submit regFormOk (.ok false) (.ok false) (.error "io error") =
      .page "auth/register-simple.html.tera"
        { brand_name := brandName, form_data := regFormOk,
          errors := some ["Registration failed: " ++ "io error"] } := by
  have h := c6_infra_error_amended loginFormWrong regFormOk "io error"
    (.ok ()) (by rfl)
  exact ⟨by rfl, h.1, h.2.2.2.1⟩

/-- The validation of `models.rs` computes exactly the aggregate of the four
spec-side per-field violation lists. -/
theorem validate_eq_spec (f : RegisterForm) :
    RegisterForm.validate f =
      if violationsSpec f = [] then .ok () else .error (violationsSpec f) := by
  unfold RegisterForm.validate violationsSpec emailViolations
    usernameViolations passwordViolations confirmViolations
  by_cases h1 : f.email.isEmpty <;>
  by_cases h2 : f.email.data.contains '@' <;>
  by_cases h3 : f.username.isEmpty <;>
  by_cases h4 : f.username.utf8ByteSize < 3 <;>
  by_cases h5 : f.password.isEmpty <;>
  by_cases h6 : f.password.utf8ByteSize < 6 <;>
  by_cases h7 : f.password = f.password_confirm <;>
  simp [h1, h2, h3, h4, h5, h6, h7]

/-- The email violation list is empty exactly when the email constraint
holds. -/
theorem emailViolations_nil_iff (f : RegisterForm) :
    emailViolations f = [] ↔
      (f.email.isEmpty = false ∧ f.email.data.contains '@' = true) := by
  unfold emailViolations
  by_cases h1 : f.email.isEmpty <;>
  by_cases h2 : f.email.data.contains '@' <;>
  simp [h1, h2]

/-- The username violation list is empty exactly when the username
constraint holds. -/
theorem usernameViolations_nil_iff (f : RegisterForm) :
    usernameViolations f = [] ↔
      (f.username.isEmpty = false ∧ 3 ≤ f.username.utf8ByteSize) := by
  unfold usernameViolations
  by_cases h3 : f.username.isEmpty <;>
  by_cases h4 : f.username.utf8ByteSize < 3 <;>
  simp [h3, h4, Nat.not_lt, Nat.not_le] <;>
  omega

/-- The password violation list is empty exactly when the password
constraint holds. -/
theorem passwordViolations_nil_iff (f : RegisterForm) :
    passwordViolations f = [] ↔
      (f.password.isEmpty = false ∧ 6 ≤ f.password.utf8ByteSize) := by
  unfold passwordViolations
  by_cases h5 : f.password.isEmpty <;>
  by_cases h6 : f.password.utf8ByteSize < 6 <;>
  simp [h5, h6, Nat.not_lt, Nat.not_le] <;>
  omega

/-- The confirmation violation list is empty exactly when password and
confirmation agree. -/
theorem confirmViolations_nil_iff (f : RegisterForm) :
    confirmViolations f = [] ↔ f.password = f.password_confirm := by
  unfold confirmViolations
  by_cases h7 : f.password = f.password_confirm <;>
  simp [h7]

/-- The aggregate violation list is empty exactly when every field
constraint holds. -/
theorem violationsSpec_nil_iff (f : RegisterForm) :
    violationsSpec f = [] ↔ constraintsHold f := by
  unfold violationsSpec constraintsHold
  simp only [List.append_eq_nil, emailViolations_nil_iff,
    usernameViolations_nil_iff, passwordViolations_nil_iff,
    confirmViolations_nil_iff]
  tauto

/-- C4: registration validation is an aggregate over the four field
constraints: it returns Ok exactly when no constraint is violated, otherwise
the full in-order list of violation messages with no short-circuiting across
fields; a confirmation mismatch with every other field valid yields exactly
that one violation. -/
theorem c4_validation_aggregate (f : RegisterForm) :
    (RegisterForm.validate f = .ok () ↔ constraintsHold f) ∧
    (violationsSpec f ≠ [] →
      RegisterForm.validate f = .error (violationsSpec f)) ∧
    (f.email.isEmpty = false → f.email.data.contains '@' = true →
     f.username.isEmpty = false → 3 ≤ f.username.utf8ByteSize →
     f.password.isEmpty = false → 6 ≤ f.password.utf8ByteSize →
     f.password ≠ f.password_confirm →
     RegisterForm.validate f = .error ["Passwords do not match"]) := by
  refine ⟨?_, ?_, ?_⟩
  · rw [validate_eq_spec]
    by_cases h : violationsSpec f = []
    · simp [h, (violationsSpec_nil_iff f).mp h]
    · simp only [if_neg h]
      constructor
      · intro hc
        exact absurd hc (by simp)
      · intro hc
        exact absurd ((violationsSpec_nil_iff f).mpr hc) h
  · intro h
    rw [validate_eq_spec, if_neg h]
  · intro e1 e2 u1 u2 p1 p2 hm
    have hu : ¬ (f.username.utf8ByteSize < 3) := Nat.not_lt.mpr u2
    have hp : ¬ (f.password.utf8ByteSize < 6) := Nat.not_lt.mpr p2
    have e2m : '@' ∈ f.email.data := by simpa using e2
    have hv : violationsSpec f = ["Passwords do not match"] := by
      unfold violationsSpec emailViolations usernameViolations
        passwordViolations confirmViolations
      simp [e1, e2m, u1, p1, hu, hp, hm]
    rw [validate_eq_spec, hv]
    rfl

/-- C4, witness: a form whose only defect is the confirmation mismatch gets
exactly that violation, and a fully valid form validates Ok. -/
theorem c4_validation_aggregate_witness :
    RegisterForm.validate regFormMismatch = .error ["Passwords do not match"] ∧
    RegisterForm.validate regFormOk = .ok () := by
  have h1 := (c4_validation_aggregate regFormMismatch).2.2
    (by rfl) (by rfl) (by rfl) (by decide) (by rfl) (by decide) (by decide)
  have h2 := (c4_validation_aggregate regFormOk).1.mpr
    ⟨⟨rfl, rfl⟩, ⟨rfl, by decide⟩, ⟨rfl, by decide⟩, rfl⟩
  exact ⟨h1, h2⟩

/-- C1, counterexample: registering a form that carries a first and a last
name succeeds, and authenticating with the same email and password then
returns the stored row — which differs from the User value that CreateUser
returned, because the INSERT takes the name fields from the form while the
returned User leaves them unset.  Authenticate therefore does not return
"that user" up to record equality. -/
theorem c1_counterexample :
    create_user sampleHash "id-1" 0 [] regFormAnn = .ok (c1User, [c1Row]) ∧
    authenticate_user sampleVerify [c1Row] "a@x.com" "secret1" = some c1Row ∧
    c1Row ≠ c1User ∧
    c1Row.first_name = some "Ann" ∧
    c1User.first_name = none := by
  refine ⟨rfl, by decide, by decide, rfl, rfl⟩

/-- C1, amended: for every registration input that passes field validation
and conflicts with no existing id, email or username, creating the user
succeeds, and authenticating with the same email and password returns the
inserted row — which agrees with the created user on id (both equal the
fresh id), while its name fields come from the form — and the id of the
SessionIdentity built from the authenticated row equals the id of the
created user. -/
theorem c1_create_then_authenticate
    (hashFn : String → String) (verifyFn : String → String → Bool)
    (freshId : String) (now : Nat) (db : UsersTable) (form : RegisterForm)
    (hval : form.validate = .ok ())
    (hrt : verifyFn form.password (hashFn form.password) = true)
    (hfresh : ∀ r ∈ db,
      r.id ≠ freshId ∧ r.email ≠ form.email ∧ r.username ≠ form.username) :
    create_user hashFn freshId now db form =
      .ok (User.new freshId now form.email form.username (hashFn form.password),
        db ++ [createdRow hashFn freshId now form]) ∧
    authenticate_user verifyFn (db ++ [createdRow hashFn freshId now form])
        form.email form.password = some (createdRow hashFn freshId now form) ∧
    (createdRow hashFn freshId now form).id = freshId ∧
    (User.new freshId now form.email form.username (hashFn form.password)).id
      = freshId ∧
    (SessionUser.fromUser (createdRow hashFn freshId now form)).id = freshId := by
  have hany : (db.any fun r =>
      r.id == (User.new freshId now form.email form.username
        (hashFn form.password)).id ||
      r.email == (User.new freshId now form.email form.username
        (hashFn form.password)).email ||
      r.username == (User.new freshId now form.email form.username
        (hashFn form.password)).username) = false := by
    rw [Bool.eq_false_iff]
    intro hcontra
    rw [List.any_eq_true] at hcontra
    obtain ⟨r, hr, hpr⟩ := hcontra
    obtain ⟨hid, hemail, husername⟩ := hfresh r hr
    simp only [User.new, Bool.or_eq_true, beq_iff_eq] at hpr
    rcases hpr with (h | h) | h
    · exact hid h
    · exact hemail h
    · exact husername h
  have hcreate : create_user hashFn freshId now db form =
      .ok (User.new freshId now form.email form.username (hashFn form.password),
        db ++ [createdRow hashFn freshId now form]) := by
    unfold create_user
    simp only [hany]
    rfl
  have hnone : db.find? (fun r => r.email == form.email && r.is_active) = none := by
    rw [List.find?_eq_none]
    intro r hr
    obtain ⟨-, hemail, -⟩ := hfresh r hr
    simp [hemail]
  have hfind : (db ++ [createdRow hashFn freshId now form]).find?
      (fun r => r.email == form.email && r.is_active) =
      some (createdRow hashFn freshId now form) := by
    rw [find?_append_of_none hnone]
    simp [List.find?, createdRow, User.new]
  have hauth : authenticate_user verifyFn
      (db ++ [createdRow hashFn freshId now form]) form.email form.password =
      some (createdRow hashFn freshId now form) := by
    have hrt2 : verifyFn form.password
        (createdRow hashFn freshId now form).password_hash = true := hrt
    unfold authenticate_user
    rw [hfind]
    simp [hrt2, rowToUser_eq]
  exact ⟨hcreate, hauth, rfl, rfl, rfl⟩

/-- C1, witness: the amended statement at the concrete scenario of the spec:
registering a valid form for alice and logging in with the same email and
password returns the stored row, whose SessionIdentity id equals the fresh
id assigned at creation. -/
theorem c1_create_then_authenticate_witness :
    regFormOk.validate = .ok () ∧
    create_user sampleHash "id-1" 0 [] regFormOk =
      .ok (User.new "id-1" 0 "a@x.com" "alice" (sampleHash "secret1"),
        [] ++ [createdRow sampleHash "id-1" 0 regFormOk]) ∧
    authenticate_user sampleVerify
        ([] ++ [createdRow sampleHash "id-1" 0 regFormOk]) "a@x.com" "secret1" =
      some (createdRow sampleHash "id-1" 0 regFormOk) ∧
    (SessionUser.fromUser (createdRow sampleHash "id-1" 0 regFormOk)).id =
      "id-1" := by
  have h := c1_create_then_authenticate sampleHash sampleVerify "id-1" 0 []
    regFormOk (by rfl) (by decide) (by intro r hr; cases hr)
  exact ⟨by rfl, h.1, h.2.1, h.2.2.2.2⟩

/-- C3: a login submission with a registered email and a wrong password and
one with an email belonging to no user produce the same outcome:
Authenticate returns the no-match value (not an error) in both runs, and
both re-rendered login pages carry the identical generic error message. -/
theorem c3_no_account_enumeration
    (verifyFn : String → String → Bool) (db : UsersTable)
    (f₁ f₂ : LoginForm) (row : User) (store : Except String Unit)
    (h1 : db.find? (fun r => r.email == f₁.email && r.is_active) = some row)
    (h2 : verifyFn f₁.password row.password_hash = false)
    (h3 : ∀ r ∈ db, r.email ≠ f₂.email) :
    authenticate_user verifyFn db f₁.email f₁.password = none ∧
    authenticate_user verifyFn db f₂.email f₂.password = none ∧
    login_submit_flow verifyFn db store f₁ =
      .page "auth/login.html.tera"
        { brand_name := brandName, form_data := f₁,
          error := some "Invalid email or password" } ∧
    login_submit_flow verifyFn db store f₂ =
      .page "auth/login.html.tera"
        { brand_name := brandName, form_data := f₂,
          error := some "Invalid email or password" } := by
  have ha1 : authenticate_user verifyFn db f₁.email f₁.password = none := by
    unfold authenticate_user
    rw [h1]
    simp [h2]
  have ha2 : authenticate_user verifyFn db f₂.email f₂.password = none := by
    unfold authenticate_user
    have hfnone : db.find? (fun r => r.email == f₂.email && r.is_active)
        = none := by
      rw [List.find?_eq_none]
      intro r hr
      simp [h3 r hr]
    rw [hfnone]
  refine ⟨ha1, ha2, ?_, ?_⟩ <;>
    simp [login_submit_flow, login_submit, ha1, ha2]

/-- C3, witness: the two runs at a concrete store holding one registered
user: the wrong-password run and the unknown-email run both fail with the
same rendered message. -/
theorem c3_no_account_enumeration_witness :
    authenticate_user sampleVerify [c1Row] "a@x.com" "wrong" = none ∧
    authenticate_user sampleVerify [c1Row] "b@x.com" "whatever" = none ∧
    login_submit_flow sampleVerify [c1Row] (.ok ()) loginFormWrong =
      .page "auth/login.html.tera"
        { brand_name := brandName, form_data := loginFormWrong,
          error := some "Invalid email or password" } ∧
    login_submit_flow sampleVerify [c1Row] (.ok ()) loginFormNoUser =
      .page "auth/login.html.tera"
        { brand_name := brandName, form_data := loginFormNoUser,
          error := some "Invalid email or password" } := by
  have h := c3_no_account_enumeration sampleVerify [c1Row] loginFormWrong
    loginFormNoUser c1Row (.ok ()) (by decide) (by decide) (by decide)
  exact ⟨h.1, h.2.1, h.2.2.1, h.2.2.2⟩

end WebAuth
